import Mathlib

/-!
Shallow embedding of the xenia APU audio system core
(`src/xenia/apu/audio_system.cc`): the fixed-capacity client slot pool,
registration/unregistration, frame submission, and the dispatch worker's
wakeup sweep.  Machine integers (`uint32_t`, `size_t`) are modelled as `Nat`;
Win32 handles (semaphores, the shutdown event) are modelled by their counts
and flags; fallible paths (failed assertions, undefined behaviour such as
`front()` on an empty queue or a null driver dereference) are modelled as
`Option`/`Except` results.
-/

namespace Xenia

/-- One client record of the `clients_` array: `AudioClient` holds the
driver pointer (0 = NULL), the guest callback address, the raw
`callback_arg`, and `wrapped_callback_arg` — the guest address of the
heap block that stores the byte-swapped copy of `callback_arg`
(set in `AudioSystem::RegisterClient`, line 164 of audio_system.cc). -/
structure AudioClient where
  driver : Nat
  callback : Nat
  callback_arg : Nat
  wrapped_callback_arg : Nat
deriving Repr, DecidableEq

/-- The zeroed client record, as produced by `memset(clients_, 0, ...)` in the
constructor and by `clients_[index] = {0}` in `UnregisterClient`. -/
def AudioClient.empty : AudioClient := ⟨0, 0, 0, 0⟩

/-- Byte swap of a 32-bit value, as performed by `xe::store_and_swap<uint32_t>`
when writing the guest-endian copy of `callback_arg` into the arg block. -/
def bswap32 (v : Nat) : Nat :=
  v % 256 * 16777216 + v / 256 % 256 * 65536 + v / 65536 % 256 * 256 +
    v / 16777216 % 256

/-- A dispatched callback invocation: `processor->Execute(thread_state,
client_callback, args, 1)` with `args = {client_callback_arg}` taken from the
client record (WorkerThreadMain, lines 101-109). -/
structure Invocation where
  slot : Nat
  callback : Nat
  arg : Nat
deriving Repr, DecidableEq

/-- State of one `AudioSystem` instance.  `maxClients` is
`kMaximumClientCount` and `maxQueuedFrames` is `kMaximumQueuedFrames`
(fixed configuration constants set at construction; their header is not
among the given sources, so they are carried as fields).  `clients` is the
`clients_` array, `unused_clients` the FIFO `std::queue` of free indices
(head = front), `client_semaphores` the counts of the per-slot counting
semaphores (created with initial count 0 and maximum `kMaximumQueuedFrames`),
`worker_running` / `shutdown_event` the worker flag and the manual-reset
shutdown event.  The guest system heap is modelled by a bump pointer
`heap_next`, the list `heap_live` of currently allocated block addresses,
and `heap_mem`, an association list from addresses to stored words. -/
structure AudioSystem where
  maxClients : Nat
  maxQueuedFrames : Nat
  clients : List AudioClient
  unused_clients : List Nat
  client_semaphores : List Nat
  worker_running : Bool
  shutdown_event : Bool
  heap_next : Nat
  heap_live : List Nat
  heap_mem : List (Nat × Nat)
deriving Repr, DecidableEq

/-- `AudioSystem::AudioSystem`: zeroed client array, free-list holding
`0, 1, ..., N-1` in order, all semaphores at count 0, worker not running,
shutdown event unsignaled.  `heapBase` is the first address the guest
system heap will hand out. -/
def AudioSystem.create (n maxQF heapBase : Nat) : AudioSystem :=
  { maxClients := n
    maxQueuedFrames := maxQF
    clients := List.replicate n AudioClient.empty
    unused_clients := List.range n
    client_semaphores := List.replicate n 0
    worker_running := false
    shutdown_event := false
    heap_next := heapBase
    heap_live := []
    heap_mem := [] }

/-- `AudioSystem::Setup`: sets `worker_running_ = true` and spawns the worker
thread (the thread itself is modelled by `workerWakeup` and, for the
interleaved shutdown analysis, by the step relation further below). -/
def AudioSystem.Setup (s : AudioSystem) : AudioSystem :=
  { s with worker_running := true }

/-- Win32 `ReleaseSemaphore` on a counting semaphore: adding `n` succeeds and
returns TRUE iff it does not exceed the maximum count; otherwise the count is
unchanged and FALSE is returned. -/
def releaseSemaphore (count max n : Nat) : Nat × Bool :=
  if count + n ≤ max then (count + n, true) else (count, false)

/-- The semaphore drain loop of `AudioSystem::UnregisterClient`
(lines 193-197): repeated `WaitForSingleObject(client_semaphore, 0)` until it
stops returning `WAIT_OBJECT_0`.  Returns
(final count, number of successful zero-timeout acquires, number of wait
attempts).  Every attempt has timeout 0, so none can block. -/
def drainSemaphore : Nat → Nat × Nat × Nat
  | 0 => (0, 0, 1)
  | c + 1 =>
    let r := drainSemaphore c
    (r.1, r.2.1 + 1, r.2.2 + 1)

/-- `AudioSystem::RegisterClient`.  `driverResult` stands for the external
`CreateDriver` factory call: `.ok d` is a successfully constructed driver
handle `d` (non-null by `assert_not_null`), `.error e` a failed creation with
status `e`.  Faithful to the source order: read the queue front WITHOUT
popping, pre-signal the slot semaphore by `kMaximumQueuedFrames`, call the
factory (on failure return its status — the pre-signal is NOT undone), then
pop the free-list, allocate the 4-byte arg block, store the byte-swapped
`callback_arg` in it, and fill the client record.  Failed assertions are
fatal at the call site (the spec's reading of `assert_true`), modelled as
`none`: an empty free-list (`assert_true(unused_clients_.size())`, followed
by UB of `front()` on an empty queue), a FALSE return from
`ReleaseSemaphore` (`assert_true(ret == TRUE)`), and a null driver from a
"successful" factory (`assert_not_null(driver)`). -/
def AudioSystem.RegisterClient (s : AudioSystem) (callback callback_arg : Nat)
    (driverResult : Except Nat Nat) : Option (AudioSystem × Except Nat Nat) :=
  match s.unused_clients with
  | [] => none
  | index :: rest =>
    let sem0 := s.client_semaphores.getD index 0
    let rel := releaseSemaphore sem0 s.maxQueuedFrames s.maxQueuedFrames
    if rel.2 = false then none
    else
    let s1 := { s with client_semaphores := s.client_semaphores.set index rel.1 }
    match driverResult with
    | .error e => some (s1, .error e)
    | .ok driver =>
      if driver = 0 then none
      else
        let ptr := s1.heap_next
        some ({ s1 with
          unused_clients := rest
          heap_next := s1.heap_next + 4
          heap_live := s1.heap_live ++ [ptr]
          heap_mem := (ptr, bswap32 callback_arg) :: s1.heap_mem
          clients := s1.clients.set index ⟨driver, callback, callback_arg, ptr⟩ },
          Except.ok index)

/-- `AudioSystem::UnregisterClient`: after `assert_true(index <
kMaximumClientCount)` it unconditionally destroys the driver, zeroes the
record, pushes the index to the free-list (no occupancy check), and drains the
slot's semaphore to 0.  The guest heap is untouched — the arg block is not
freed.  `none` models an out-of-range index (failed assertion). -/
def AudioSystem.UnregisterClient (s : AudioSystem) (index : Nat) :
    Option AudioSystem :=
  if index < s.maxClients then
    let drained := drainSemaphore (s.client_semaphores.getD index 0)
    some { s with
      clients := s.clients.set index AudioClient.empty
      unused_clients := s.unused_clients ++ [index]
      client_semaphores := s.client_semaphores.set index drained.1 }
  else none

/-- `AudioSystem::SubmitFrame`: asserts `index < kMaximumClientCount` and
`clients_[index].driver != NULL`, then forwards `samples_ptr` to the slot's
driver.  Returns (unchanged state, driver handle that received the frame,
buffer address); `none` models a failed assertion / null driver dereference. -/
def AudioSystem.SubmitFrame (s : AudioSystem) (index samples_ptr : Nat) :
    Option (AudioSystem × Nat × Nat) :=
  if index < s.maxClients ∧ (s.clients.getD index AudioClient.empty).driver ≠ 0
  then some (s, (s.clients.getD index AudioClient.empty).driver, samples_ptr)
  else none

/-- Index of the lowest signaled semaphore, mirroring
`WaitForMultipleObjectsEx` with `bWaitAll = FALSE`, which reports the
SMALLEST array index whose object is signaled (the semaphores occupy indices
`0 .. N-1` of `wait_handles_`, the shutdown event index `N`, so any signaled
client semaphore wins over the shutdown event). -/
def lowestSignaled : List Nat → Option Nat
  | [] => none
  | c :: rest => if 0 < c then some 0 else (lowestSignaled rest).map (· + 1)

/-- The `do { ... } while` dispatch sweep of `WorkerThreadMain`
(lines 99-115): invoke the current slot's callback if non-null, advance to
`index + 1`, and continue only while that NEXT slot's semaphore can be
acquired with a zero timeout — the sweep stops at the first non-signaled
slot.  Returns (invocations in order, updated semaphore counts, `pumped`).
`fuel` is an upper bound on the remaining iterations; the caller passes
`clients.length`, which always suffices since `index` increases. -/
def sweepLoop (clients : List AudioClient) : Nat → List Nat → Nat →
    List Invocation × List Nat × Nat
  | 0, sems, _ => ([], sems, 0)
  | fuel + 1, sems, index =>
    let c := clients.getD index AudioClient.empty
    let inv : List Invocation :=
      if c.callback ≠ 0 then [⟨index, c.callback, c.wrapped_callback_arg⟩]
      else []
    if index + 1 < clients.length ∧ 0 < sems.getD (index + 1) 0 then
      let sems1 := sems.set (index + 1) (sems.getD (index + 1) 0 - 1)
      let r := sweepLoop clients fuel sems1 (index + 1)
      (inv ++ r.1, r.2.1, r.2.2 + 1)
    else
      (inv, sems, 1)

/-- One iteration of the worker's `while (worker_running_)` loop, from the
blocking `WaitForMultipleObjectsEx` through the dispatch sweep.  `none` when
the worker is not running or nothing is signaled (the wait blocks).  If a
client semaphore is signaled, the wait consumes one count of the LOWEST
signaled one and the sweep runs from that index; if only the shutdown event
is signaled the iteration dispatches nothing (`continue`). -/
def workerWakeup (s : AudioSystem) :
    Option (AudioSystem × List Invocation) :=
  if s.worker_running then
    match lowestSignaled s.client_semaphores with
    | some i =>
      let sems1 := s.client_semaphores.set i (s.client_semaphores.getD i 0 - 1)
      let r := sweepLoop s.clients s.clients.length sems1 i
      some ({ s with client_semaphores := r.2.1 }, r.1)
    | none =>
      if s.shutdown_event then some (s, []) else none
  else none

/-! ### Operation sequences over the slot pool -/

/-- One guest-visible slot-pool operation: a `RegisterClient` call (with the
outcome of the external driver factory) or an `UnregisterClient` call. -/
inductive PoolOp where
  | reg (callback callback_arg : Nat) (driverResult : Except Nat Nat)
  | unreg (index : Nat)
deriving Repr

/-- Execute one pool operation under its stated preconditions: registration
requires a free slot (and passing asserts), unregistration requires an
in-range, currently occupied index.  `none` marks a precondition violation
or fatal assertion; such runs are excluded. -/
def stepOp (s : AudioSystem) : PoolOp → Option AudioSystem
  | .reg cb arg dr => (s.RegisterClient cb arg dr).map Prod.fst
  | .unreg i =>
    if i < s.maxClients ∧ (s.clients.getD i AudioClient.empty).driver ≠ 0 then
      s.UnregisterClient i
    else none

/-- Run a list of pool operations from a state, failing if any step fails. -/
def runOps (s : AudioSystem) : List PoolOp → Option AudioSystem
  | [] => some s
  | op :: rest =>
    match stepOp s op with
    | none => none
    | some s' => runOps s' rest

/-- Number of occupied slots: clients whose driver pointer is non-null. -/
def occupiedCount (s : AudioSystem) : Nat :=
  s.clients.countP fun c => c.driver != 0

/-- The slot-table invariant: the arrays have capacity `maxClients`, the
free-list holds no duplicates, every free-list member is an in-range
unoccupied slot, and free-list size plus occupied count equals the
capacity. -/
def Inv (s : AudioSystem) : Prop :=
  s.clients.length = s.maxClients ∧
  s.client_semaphores.length = s.maxClients ∧
  s.unused_clients.Nodup ∧
  (∀ i ∈ s.unused_clients, i < s.maxClients ∧
    (s.clients.getD i AudioClient.empty).driver = 0) ∧
  s.unused_clients.length + occupiedCount s = s.maxClients

instance (s : AudioSystem) : Decidable (Inv s) := by
  unfold Inv; infer_instance

/-- The state produced by a successful `RegisterClient` that popped index
`i` (leaving `rest` in the free-list) and obtained driver `d` from the
factory, starting from a state whose slot-`i` semaphore count was 0: the
semaphore is pre-signaled to `maxQueuedFrames`, a 4-byte arg block is
allocated at `heap_next` holding the byte-swapped `callback_arg`, and the
client record is filled.  Used to phrase theorems about registration. -/
def registerOutcome (s : AudioSystem) (cb arg d i : Nat) (rest : List Nat) :
    AudioSystem :=
  { s with
    client_semaphores := s.client_semaphores.set i s.maxQueuedFrames
    unused_clients := rest
    heap_next := s.heap_next + 4
    heap_live := s.heap_live ++ [s.heap_next]
    heap_mem := (s.heap_next, bswap32 arg) :: s.heap_mem
    clients := s.clients.set i ⟨d, cb, arg, s.heap_next⟩ }

/-! ### Interleaved worker/shutdown machine

A small-step model of the dispatch worker's control flow
(`WorkerThreadMain`, lines 86-126) interleaved with `AudioSystem::Shutdown`
(lines 134-139), used for the temporal shutdown claim.  Shared state is the
clients array, the semaphore counts, the `worker_running_` flag and the
manual-reset shutdown event; each actor has a program counter. -/

/-- Control point of the dispatch worker thread. -/
inductive WorkerPC where
  /-- About to evaluate the `while (worker_running_)` condition. -/
  | loopHead
  /-- Blocked in `WaitForMultipleObjectsEx` on the `N+1` handles. -/
  | waiting
  /-- Inside the do-while sweep, about to process slot `index`. -/
  | dispatching (index : Nat)
  /-- At the `if (!worker_running_) break` check after the sweep. -/
  | recheck
  /-- Out of the loop; the thread is done. -/
  | exited
deriving Repr, DecidableEq

/-- Control point of the thread calling `AudioSystem::Shutdown`. -/
inductive ShutdownPC where
  /-- `Shutdown` has not been called yet. -/
  | notCalled
  /-- `worker_running_ = false` and `SetEvent(shutdown_event_)` have executed;
  the caller is blocked in `worker_thread_->Wait(...)`. -/
  | signaled
  /-- The join returned; `Shutdown` has returned to its caller. -/
  | returned
deriving Repr, DecidableEq

/-- Shared state plus both program counters for the interleaved model. -/
structure WorldState where
  clients : List AudioClient
  sems : List Nat
  running : Bool
  event : Bool
  wpc : WorkerPC
  spc : ShutdownPC
deriving Repr, DecidableEq

/-- Observable step labels: callback invocation begin (the call into
`processor->Execute`), the shutdown signal, the shutdown join returning, and
internal steps. -/
inductive Lbl where
  | tau
  | invokeBegin (slot callback arg : Nat)
  | shutdownSignal
  | shutdownReturn
deriving Repr, DecidableEq

/-- Advance past slot `i` in the do-while sweep: continue at `i + 1` iff it
is in range and its semaphore can be acquired with timeout 0 (consuming one
count); otherwise fall out of the sweep to the running-flag re-check. -/
def afterDispatch (w : WorldState) (i : Nat) : WorldState :=
  if i + 1 < w.clients.length ∧ 0 < w.sems.getD (i + 1) 0 then
    { w with sems := w.sems.set (i + 1) (w.sems.getD (i + 1) 0 - 1)
             wpc := WorkerPC.dispatching (i + 1) }
  else { w with wpc := WorkerPC.recheck }

/-- One atomic step of the interleaved worker/shutdown system. -/
inductive Step : WorldState → Lbl → WorldState → Prop where
  /-- The worker evaluates `while (worker_running_)`. -/
  | checkRun (w : WorldState) (h : w.wpc = WorkerPC.loopHead) :
      Step w Lbl.tau
        { w with wpc := cond w.running WorkerPC.waiting WorkerPC.exited }
  /-- The blocking wait completes on the lowest signaled client semaphore
  (Win32 reports the smallest signaled index, and the semaphores precede the
  shutdown event in `wait_handles_`), consuming one count. -/
  | wakeSem (w : WorldState) (i : Nat) (h : w.wpc = WorkerPC.waiting)
      (hs : lowestSignaled w.sems = some i) :
      Step w Lbl.tau
        { w with sems := w.sems.set i (w.sems.getD i 0 - 1)
                 wpc := WorkerPC.dispatching i }
  /-- The blocking wait completes on the shutdown event alone; the worker
  `continue`s to the loop head. -/
  | wakeEvent (w : WorldState) (h : w.wpc = WorkerPC.waiting)
      (hs : lowestSignaled w.sems = none) (he : w.event = true) :
      Step w Lbl.tau { w with wpc := WorkerPC.loopHead }
  /-- The worker begins invoking slot `i`'s non-null callback through the
  execution engine, then advances per the do-while condition. -/
  | invoke (w : WorldState) (i : Nat)
      (h : w.wpc = WorkerPC.dispatching i)
      (hcb : (w.clients.getD i AudioClient.empty).callback ≠ 0) :
      Step w
        (Lbl.invokeBegin i (w.clients.getD i AudioClient.empty).callback
          (w.clients.getD i AudioClient.empty).wrapped_callback_arg)
        (afterDispatch w i)
  /-- Slot `i`'s callback is null; nothing is invoked and the sweep
  advances per the do-while condition. -/
  | skipNull (w : WorldState) (i : Nat)
      (h : w.wpc = WorkerPC.dispatching i)
      (hcb : (w.clients.getD i AudioClient.empty).callback = 0) :
      Step w Lbl.tau (afterDispatch w i)
  /-- The worker evaluates `if (!worker_running_) break` after the sweep
  (the idle sleep is invisible here). -/
  | recheckStep (w : WorldState) (h : w.wpc = WorkerPC.recheck) :
      Step w Lbl.tau
        { w with wpc := cond w.running WorkerPC.loopHead WorkerPC.exited }
  /-- `Shutdown` clears `worker_running_` and sets the shutdown event, then
  blocks in the join. -/
  | shutdownSignal (w : WorldState) (h : w.spc = ShutdownPC.notCalled) :
      Step w Lbl.shutdownSignal
        { w with running := false, event := true, spc := ShutdownPC.signaled }
  /-- The join in `Shutdown` returns — only once the worker has exited. -/
  | shutdownReturn (w : WorldState) (h : w.spc = ShutdownPC.signaled)
      (hw : w.wpc = WorkerPC.exited) :
      Step w Lbl.shutdownReturn { w with spc := ShutdownPC.returned }

/-- A finite execution: a labelled sequence of steps. -/
inductive Steps : WorldState → List Lbl → WorldState → Prop where
  | nil (w : WorldState) : Steps w [] w
  | cons {w w' w'' : WorldState} {l : Lbl} {ls : List Lbl} :
      Step w l w' → Steps w' ls w'' → Steps w (l :: ls) w''

/-! ### Concrete scenario states used by counterexamples and witnesses -/

/-- Six fully registered clients (drivers non-null, callbacks `10 + i`,
arg blocks `100 + i`), worker running, semaphores signaled at slots 0, 2
and 5 only. -/
def c1sys : AudioSystem :=
  { (AudioSystem.create 6 64 4096).Setup with
    clients := [⟨1, 10, 0, 100⟩, ⟨1, 11, 0, 101⟩, ⟨1, 12, 0, 102⟩,
                ⟨1, 13, 0, 103⟩, ⟨1, 14, 0, 104⟩, ⟨1, 15, 0, 105⟩]
    client_semaphores := [1, 0, 1, 0, 0, 1] }

/-- Fresh 4-slot system with the worker running; heap base 4096. -/
def c3base : AudioSystem := (AudioSystem.create 4 64 4096).Setup

/-- State after registering callback 77 with `callback_arg = 5` (driver
handle 9) on `c3base`. -/
def c3sys : AudioSystem :=
  ((c3base.RegisterClient 77 5 (Except.ok 9)).map Prod.fst).getD c3base

/-- State after `UnregisterClient 0` on `c3sys`. -/
def c4sys : AudioSystem := (c3sys.UnregisterClient 0).getD c3sys

/-- Fresh 2-slot system (worker not yet started); heap base 4096. -/
def c2base : AudioSystem := AudioSystem.create 2 64 4096

/-- State returned by a registration on `c2base` whose driver factory fails
with status 7. -/
def c2fail : AudioSystem :=
  ((c2base.RegisterClient 77 5 (Except.error 7)).map Prod.fst).getD c2base

/-- Fresh 2-slot system for the invalid-slot scenarios. -/
def c9base : AudioSystem := AudioSystem.create 2 4 100

/-- State after `UnregisterClient 0` on `c9base` — slot 0 was never
registered. -/
def c9sys : AudioSystem := (c9base.UnregisterClient 0).getD c9base

/-- A four-operation run: fill both slots, unregister slot 0, register
again — the freed index 0 is reused. -/
def c5ops : List PoolOp :=
  [PoolOp.reg 11 22 (Except.ok 3), PoolOp.reg 33 44 (Except.ok 5),
   PoolOp.unreg 0, PoolOp.reg 55 66 (Except.ok 7)]

/-- Final state of running `c5ops` on a fresh 2-slot system. -/
def c5final : AudioSystem :=
  (runOps (AudioSystem.create 2 4 100) c5ops).getD (AudioSystem.create 2 4 100)

/-- Initial interleaved state for the shutdown scenario: one registered
client at slot 0 (callback 9, arg block 100), its semaphore signaled, the
worker at the loop head, shutdown not yet called. -/
def c8w0 : WorldState :=
  { clients := [⟨1, 9, 0, 100⟩]
    sems := [1]
    running := true
    event := false
    wpc := WorkerPC.loopHead
    spc := ShutdownPC.notCalled }

/-- `c8w0` after the worker entered the wait. -/
def c8w1 : WorldState := { c8w0 with wpc := WorkerPC.waiting }

/-- `c8w1` after `Shutdown` signaled: running flag cleared, event set. -/
def c8w2 : WorldState :=
  { c8w1 with running := false, event := true, spc := ShutdownPC.signaled }

/-- `c8w2` after the wait completed on slot 0's semaphore. -/
def c8w3 : WorldState :=
  { c8w2 with sems := [0], wpc := WorkerPC.dispatching 0 }

/-- `c8w3` after the callback invocation began and the sweep fell through. -/
def c8w4 : WorldState := { c8w3 with wpc := WorkerPC.recheck }

/-- A post-shutdown state with the worker already exited. -/
def c8wE : WorldState := { c8w2 with wpc := WorkerPC.exited }

/-! ## Helper lemmas -/

theorem getD_set_self {α : Type} (l : List α) (i : Nat) (v d : α)
    (h : i < l.length) : (l.set i v).getD i d = v := by
  simp [List.getD_eq_getElem?_getD, List.getElem?_set_self h]

theorem getD_set_ne {α : Type} (l : List α) (i j : Nat) (v d : α)
    (h : i ≠ j) : (l.set i v).getD j d = l.getD j d := by
  simp [List.getD_eq_getElem?_getD, List.getElem?_set_ne h]

/-- `WaitForMultipleObjectsEx` wakes on index `i` when slot `i` is signaled
and all lower slots are not. -/
theorem lowestSignaled_eq_some (l : List Nat) (i : Nat) (hi : i < l.length)
    (hpos : 0 < l.getD i 0) (hz : ∀ j, j < i → l.getD j 0 = 0) :
    lowestSignaled l = some i := by
  induction l generalizing i with
  | nil => simp at hi
  | cons a rest ih =>
    cases i with
    | zero =>
      simp only [List.getD_cons_zero] at hpos
      simp [lowestSignaled, hpos]
    | succ n =>
      have ha : a = 0 := by simpa using hz 0 (Nat.succ_pos n)
      subst ha
      have hr : lowestSignaled rest = some n :=
        ih n (by simpa using hi) (by simpa using hpos)
          (fun j hj => by simpa using hz (j + 1) (by omega))
      simp [lowestSignaled, hr]

/-- The dispatch sweep performs exactly one iteration when the next slot is
out of range or not signaled. -/
theorem sweepLoop_stop (clients : List AudioClient) (fuel : Nat)
    (sems : List Nat) (i : Nat)
    (h : ¬(i + 1 < clients.length ∧ 0 < sems.getD (i + 1) 0)) :
    sweepLoop clients (fuel + 1) sems i =
      ((if (clients.getD i AudioClient.empty).callback ≠ 0 then
          [⟨i, (clients.getD i AudioClient.empty).callback,
            (clients.getD i AudioClient.empty).wrapped_callback_arg⟩]
        else []), sems, 1) := by
  rw [sweepLoop]
  rw [if_neg h]

/-! ## C1: dispatch of simultaneously signaled slots 0, 2, 5 -/

/-- C1 counterexample: with slots 0, 2 and 5 simultaneously signaled (and all
six slots occupied with non-null callbacks), a single wakeup sweep invokes
ONLY slot 0's callback — not the callbacks of slots 0, 2 and 5 — because the
do-while sweep stops at the first non-signaled slot (slot 1). -/
theorem C1_counterexample :
    (workerWakeup c1sys).map (fun r => r.2.map Invocation.slot) = some [0] ∧
    (workerWakeup c1sys).map (fun r => r.2.map Invocation.slot) ≠
      some [0, 2, 5] := by
  constructor
  · decide
  · decide

/-- C1 (amended): when the dispatch worker wakes with slots 0, 2 and 5
signaled but slot 1 not signaled, the single wakeup sweep invokes only
slot 0's callback (so invocations are trivially in ascending slot order);
the sweep stops at the first non-signaled slot and slots 2 and 5 are left
for later blocking waits. -/
theorem C1_sweep_stops_at_gap
    (s : AudioSystem) (a : Nat) (rest : List Nat) (c0 : AudioClient)
    (cs : List AudioClient)
    (hrun : s.worker_running = true)
    (hsem : s.client_semaphores = a :: rest)
    (ha : 0 < a)
    (h1 : (a :: rest).getD 1 0 = 0)
    (h2 : 0 < (a :: rest).getD 2 0)
    (h5 : 0 < (a :: rest).getD 5 0)
    (hcl : s.clients = c0 :: cs)
    (hcb : c0.callback ≠ 0) :
    workerWakeup s =
      some ({ s with client_semaphores := (a - 1) :: rest },
        [⟨0, c0.callback, c0.wrapped_callback_arg⟩]) := by
  obtain ⟨mc, mq, cl, uc, csem, wr, se, hn, hlv, hmm⟩ := s
  dsimp only at hrun hsem hcl ⊢
  subst hrun hsem hcl
  have h1' : rest.getD 0 0 = 0 := by simpa using h1
  have hls : lowestSignaled (a :: rest) = some 0 := by
    simp [lowestSignaled, ha]
  have hstop :
      ¬(0 + 1 < (c0 :: cs).length ∧ 0 < ((a - 1) :: rest).getD (0 + 1) 0) := by
    rintro ⟨-, hpos⟩
    rw [List.getD_cons_succ] at hpos
    omega
  unfold workerWakeup
  dsimp only
  rw [hls]
  dsimp only
  rw [show (a :: rest).set 0 ((a :: rest).getD 0 0 - 1) = (a - 1) :: rest
      from rfl]
  rw [show (c0 :: cs).length = cs.length + 1 from rfl]
  rw [sweepLoop_stop _ _ _ _ hstop]
  simp [hcb]

/-- C1 witness: the amended sweep theorem applied to the concrete signaled
state `c1sys`. -/
theorem C1_witness :
    workerWakeup c1sys =
      some ({ c1sys with client_semaphores := (1 - 1) :: [0, 1, 0, 0, 1] },
        [⟨0, 10, 100⟩]) :=
  C1_sweep_stops_at_gap c1sys 1 [0, 1, 0, 0, 1] ⟨1, 10, 0, 100⟩
    [⟨1, 11, 0, 101⟩, ⟨1, 12, 0, 102⟩, ⟨1, 13, 0, 103⟩, ⟨1, 14, 0, 104⟩,
     ⟨1, 15, 0, 105⟩]
    rfl rfl (by decide) (by decide) (by decide) (by decide) rfl (by decide)

/-! ## Shared registration lemmas -/

/-- Successful registration: with a free slot `i` at the queue front whose
semaphore count is 0 and a non-null driver from the factory, `RegisterClient`
returns `registerOutcome` and the popped index. -/
theorem registerClient_ok (s : AudioSystem) (cb arg d i : Nat)
    (rest : List Nat) (hu : s.unused_clients = i :: rest)
    (hs0 : s.client_semaphores.getD i 0 = 0) (hd : d ≠ 0) :
    s.RegisterClient cb arg (Except.ok d) =
      some (registerOutcome s cb arg d i rest, Except.ok i) := by
  unfold AudioSystem.RegisterClient registerOutcome
  rw [hu]
  dsimp only
  rw [hs0]
  unfold releaseSemaphore
  simp [hd]

/-- Failed registration: with a free slot `i` at the queue front whose
semaphore count is 0, a factory error `e` leaves the free-list, the client
array and the heap untouched and propagates `e`, but the pre-signal of the
slot's semaphore (to the full `maxQueuedFrames`) is retained. -/
theorem registerClient_error (s : AudioSystem) (cb arg e i : Nat)
    (rest : List Nat) (hu : s.unused_clients = i :: rest)
    (hs0 : s.client_semaphores.getD i 0 = 0) :
    s.RegisterClient cb arg (Except.error e) =
      some ({ s with client_semaphores :=
          s.client_semaphores.set i s.maxQueuedFrames },
        Except.error e) := by
  unfold AudioSystem.RegisterClient
  rw [hu]
  dsimp only
  rw [hs0]
  unfold releaseSemaphore
  simp

/-- A worker wakeup right after a successful registration on an otherwise
idle system (all semaphore counts were 0) dispatches exactly the new
client: the wait wakes on slot `i`, the sweep invokes `cb` with the guest
address `s.heap_next` of the arg block, and stops at the next slot. -/
theorem registerOutcome_wakeup (s : AudioSystem) (cb arg d i : Nat)
    (rest : List Nat)
    (hrun : s.worker_running = true)
    (hz : ∀ k, k < s.client_semaphores.length →
      s.client_semaphores.getD k 0 = 0)
    (hcb : cb ≠ 0) (hq : 0 < s.maxQueuedFrames)
    (hic : i < s.clients.length) (his : i < s.client_semaphores.length)
    (hlen : s.client_semaphores.length = s.clients.length) :
    workerWakeup (registerOutcome s cb arg d i rest) =
      some ({ registerOutcome s cb arg d i rest with
          client_semaphores := s.client_semaphores.set i
            (s.maxQueuedFrames - 1) },
        [⟨i, cb, s.heap_next⟩]) := by
  have hset : (s.client_semaphores.set i s.maxQueuedFrames).getD i 0 =
      s.maxQueuedFrames := getD_set_self _ _ _ _ his
  have hls : lowestSignaled (s.client_semaphores.set i s.maxQueuedFrames) =
      some i := by
    apply lowestSignaled_eq_some
    · simpa using his
    · rw [hset]; exact hq
    · intro j hj
      rw [getD_set_ne _ _ _ _ _ (by omega)]
      exact hz j (by omega)
  have hsems1 : (s.client_semaphores.set i s.maxQueuedFrames).set i
      ((s.client_semaphores.set i s.maxQueuedFrames).getD i 0 - 1) =
      s.client_semaphores.set i (s.maxQueuedFrames - 1) := by
    rw [hset, List.set_set]
  obtain ⟨k, hk⟩ : ∃ k, (s.clients.set i ⟨d, cb, arg, s.heap_next⟩).length
      = k + 1 := by
    refine ⟨s.clients.length - 1, ?_⟩
    simp only [List.length_set]
    omega
  have hstop : ¬(i + 1 < (s.clients.set i ⟨d, cb, arg, s.heap_next⟩).length ∧
      0 < (s.client_semaphores.set i (s.maxQueuedFrames - 1)).getD
        (i + 1) 0) := by
    rintro ⟨hlt, hpos⟩
    rw [List.length_set] at hlt
    rw [getD_set_ne _ _ _ _ _ (by omega)] at hpos
    rw [hz (i + 1) (by omega)] at hpos
    omega
  unfold workerWakeup registerOutcome
  dsimp only
  rw [hrun]
  rw [hls]
  dsimp only
  rw [hsems1, hk]
  rw [sweepLoop_stop _ _ _ _ hstop]
  have hgc : (s.clients.set i ⟨d, cb, arg, s.heap_next⟩).getD i
      AudioClient.empty = ⟨d, cb, arg, s.heap_next⟩ :=
    getD_set_self _ _ _ _ hic
  rw [hgc]
  simp [hcb, registerOutcome]

/-! ## C2: rollback of failed registration -/

/-- C2 counterexample: on the fresh two-slot system `c2base` (slot 0
semaphore count 0), a registration whose driver factory fails with status 7
returns the error and keeps the free-list and client record intact, but
slot 0's semaphore count is now 64 (`kMaximumQueuedFrames`), not 0: the
pre-signal is not rolled back, so partial state IS retained. -/
theorem C2_counterexample :
    c2base.RegisterClient 77 5 (Except.error 7) =
      some (c2fail, Except.error 7) ∧
    c2fail.unused_clients = c2base.unused_clients ∧
    c2fail.clients = c2base.clients ∧
    c2base.client_semaphores.getD 0 0 = 0 ∧
    c2fail.client_semaphores.getD 0 0 = 64 ∧ (64 : Nat) ≠ 0 :=
  ⟨rfl, rfl, rfl, rfl, rfl, by decide⟩

/-- C2 (amended): when the driver factory fails, registration leaves the
free-list, the client records and the guest heap unchanged and propagates
the factory's error — but the rollback is not full: the slot's semaphore,
pre-signaled before the factory call, keeps the full `maxQueuedFrames`
count instead of returning to its previous count. -/
theorem C2_rollback_except_semaphore (s : AudioSystem) (cb arg e i : Nat)
    (rest : List Nat) (hu : s.unused_clients = i :: rest)
    (hs0 : s.client_semaphores.getD i 0 = 0)
    (his : i < s.client_semaphores.length) (hq : 0 < s.maxQueuedFrames) :
    ∃ s1, s.RegisterClient cb arg (Except.error e) =
        some (s1, Except.error e) ∧
      s1.unused_clients = s.unused_clients ∧
      s1.clients = s.clients ∧
      s1.heap_live = s.heap_live ∧
      s1.heap_mem = s.heap_mem ∧
      s1.heap_next = s.heap_next ∧
      s1.client_semaphores.getD i 0 = s.maxQueuedFrames ∧
      s1.client_semaphores.getD i 0 ≠ s.client_semaphores.getD i 0 := by
  refine ⟨_, registerClient_error s cb arg e i rest hu hs0, rfl, rfl, rfl,
    rfl, rfl, ?_, ?_⟩
  · exact getD_set_self _ _ _ _ his
  · rw [getD_set_self _ _ _ _ his, hs0]
    omega

/-- C2 witness: the amended rollback theorem at the concrete failing
registration on `c2base`. -/
theorem C2_witness :
    ∃ s1, c2base.RegisterClient 77 5 (Except.error 7) =
        some (s1, Except.error 7) ∧
      s1.unused_clients = c2base.unused_clients ∧
      s1.clients = c2base.clients ∧
      s1.heap_live = c2base.heap_live ∧
      s1.heap_mem = c2base.heap_mem ∧
      s1.heap_next = c2base.heap_next ∧
      s1.client_semaphores.getD 0 0 = c2base.maxQueuedFrames ∧
      s1.client_semaphores.getD 0 0 ≠ c2base.client_semaphores.getD 0 0 :=
  C2_rollback_except_semaphore c2base 77 5 7 0 [1] rfl rfl (by decide)
    (by decide)

/-! ## C3: the argument passed to the dispatched callback -/

/-- C3 counterexample: client registered with `callback_arg = 5` on
`c3base`; the worker invokes its callback with argument 4096 — the guest
address of the arg block — which differs from the registered
`callback_arg` value 5. -/
theorem C3_counterexample :
    c3base.RegisterClient 77 5 (Except.ok 9) = some (c3sys, Except.ok 0) ∧
    (c3sys.clients.getD 0 AudioClient.empty).callback_arg = 5 ∧
    (workerWakeup c3sys).map (fun r => r.2) = some [⟨0, 77, 4096⟩] ∧
    (4096 : Nat) ≠ 5 :=
  ⟨rfl, rfl, rfl, by decide⟩

/-- C3 (amended): the dispatch worker invokes a freshly registered client's
callback through the execution engine with its single argument equal to the
GUEST ADDRESS of the client's arg block (`wrapped_callback_arg`, the
`heap_next` at registration time) — the block that stores the byte-swapped
copy of `callback_arg` — not the raw `callback_arg` value itself. -/
theorem C3_arg_is_block_address (s : AudioSystem) (cb arg d i : Nat)
    (rest : List Nat)
    (hrun : s.worker_running = true)
    (hu : s.unused_clients = i :: rest)
    (hz : ∀ k, k < s.client_semaphores.length →
      s.client_semaphores.getD k 0 = 0)
    (hcb : cb ≠ 0) (hd : d ≠ 0) (hq : 0 < s.maxQueuedFrames)
    (hic : i < s.clients.length) (his : i < s.client_semaphores.length)
    (hlen : s.client_semaphores.length = s.clients.length) :
    s.RegisterClient cb arg (Except.ok d) =
      some (registerOutcome s cb arg d i rest, Except.ok i) ∧
    ((registerOutcome s cb arg d i rest).clients.getD i
        AudioClient.empty).callback_arg = arg ∧
    ((registerOutcome s cb arg d i rest).clients.getD i
        AudioClient.empty).wrapped_callback_arg = s.heap_next ∧
    (registerOutcome s cb arg d i rest).heap_mem.head? =
      some (s.heap_next, bswap32 arg) ∧
    workerWakeup (registerOutcome s cb arg d i rest) =
      some ({ registerOutcome s cb arg d i rest with
          client_semaphores := s.client_semaphores.set i
            (s.maxQueuedFrames - 1) },
        [⟨i, cb, s.heap_next⟩]) := by
  have hgc : (registerOutcome s cb arg d i rest).clients.getD i
      AudioClient.empty = ⟨d, cb, arg, s.heap_next⟩ :=
    getD_set_self _ _ _ _ hic
  refine ⟨registerClient_ok s cb arg d i rest hu (hz i his) hd, ?_, ?_, rfl,
    registerOutcome_wakeup s cb arg d i rest hrun hz hcb hq hic his hlen⟩
  · rw [hgc]
  · rw [hgc]

/-- C3 witness: the amended theorem at the concrete registration on
`c3base` (callback 77, `callback_arg` 5, driver 9, slot 0). -/
theorem C3_witness :
    c3base.RegisterClient 77 5 (Except.ok 9) =
      some (registerOutcome c3base 77 5 9 0 [1, 2, 3], Except.ok 0) ∧
    ((registerOutcome c3base 77 5 9 0 [1, 2, 3]).clients.getD 0
        AudioClient.empty).callback_arg = 5 ∧
    ((registerOutcome c3base 77 5 9 0 [1, 2, 3]).clients.getD 0
        AudioClient.empty).wrapped_callback_arg = c3base.heap_next ∧
    (registerOutcome c3base 77 5 9 0 [1, 2, 3]).heap_mem.head? =
      some (c3base.heap_next, bswap32 5) ∧
    workerWakeup (registerOutcome c3base 77 5 9 0 [1, 2, 3]) =
      some ({ registerOutcome c3base 77 5 9 0 [1, 2, 3] with
          client_semaphores := c3base.client_semaphores.set 0
            (c3base.maxQueuedFrames - 1) },
        [⟨0, 77, c3base.heap_next⟩]) :=
  C3_arg_is_block_address c3base 77 5 9 0 [1, 2, 3] rfl rfl (by decide)
    (by decide) (by decide) (by decide) (by decide) (by decide) (by decide)

/-! ## C4: lifetime of the arg block -/

/-- C4 counterexample: after registering a client on `c3base` (allocating
the arg block at 4096) and then unregistering it, the block at 4096 is
STILL in the live-allocation list — `UnregisterClient` clears the record
but never frees the arg block. -/
theorem C4_counterexample :
    c3sys.heap_live = [4096] ∧
    c3sys.UnregisterClient 0 = some c4sys ∧
    c4sys.heap_live = [4096] ∧
    c4sys.clients.getD 0 AudioClient.empty = AudioClient.empty :=
  ⟨rfl, rfl, rfl, rfl⟩

/-- C4 (amended): `unregister_client` does NOT free the Client's arg block:
it leaves the guest heap (allocation list, stored contents, bump pointer)
completely unchanged and merely zeroes the client record, dropping the
pointer — the allocation outlives the Client record (a leak). -/
theorem C4_arg_block_not_freed (s : AudioSystem) (i : Nat)
    (s' : AudioSystem) (h : s.UnregisterClient i = some s') :
    s'.heap_live = s.heap_live ∧ s'.heap_mem = s.heap_mem ∧
    s'.heap_next = s.heap_next ∧
    (i < s.clients.length →
      s'.clients.getD i AudioClient.empty = AudioClient.empty) := by
  unfold AudioSystem.UnregisterClient at h
  split at h
  · injection h with h'
    subst h'
    refine ⟨rfl, rfl, rfl, fun hic => getD_set_self _ _ _ _ hic⟩
  · exact absurd h (by simp)

/-- C4 witness: the amended theorem at the concrete unregistration of the
client registered on `c3base`. -/
theorem C4_witness :
    c4sys.heap_live = c3sys.heap_live ∧ c4sys.heap_mem = c3sys.heap_mem ∧
    c4sys.heap_next = c3sys.heap_next ∧
    (0 < c3sys.clients.length →
      c4sys.clients.getD 0 AudioClient.empty = AudioClient.empty) :=
  C4_arg_block_not_freed c3sys 0 c4sys rfl

/-! ## More shared lemmas -/

/-- Inversion of a defined (non-crashing) `RegisterClient` call: the
free-list was non-empty, the popped slot's semaphore count was 0 (otherwise
the `ReleaseSemaphore` assertion fires), and the result is either the
factory's error with only the pre-signal retained, or the fully populated
`registerOutcome`. -/
theorem registerClient_some_inv (s : AudioSystem) (cb arg : Nat)
    (dr : Except Nat Nat) (s' : AudioSystem) (r : Except Nat Nat)
    (h : s.RegisterClient cb arg dr = some (s', r)) :
    ∃ i rest, s.unused_clients = i :: rest ∧
      s.client_semaphores.getD i 0 = 0 ∧
      ((∃ e, dr = Except.error e ∧ r = Except.error e ∧
          s' = { s with client_semaphores :=
            s.client_semaphores.set i s.maxQueuedFrames }) ∨
        (∃ d, dr = Except.ok d ∧ d ≠ 0 ∧ r = Except.ok i ∧
          s' = registerOutcome s cb arg d i rest)) := by
  unfold AudioSystem.RegisterClient at h
  cases hqu : s.unused_clients with
  | nil => rw [hqu] at h; exact absurd h (by simp)
  | cons j rest =>
    rw [hqu] at h
    dsimp only at h
    by_cases hle :
        s.client_semaphores.getD j 0 + s.maxQueuedFrames ≤ s.maxQueuedFrames
    · have hs0 : s.client_semaphores.getD j 0 = 0 := by omega
      have hrel : releaseSemaphore (s.client_semaphores.getD j 0)
          s.maxQueuedFrames s.maxQueuedFrames = (s.maxQueuedFrames, true) := by
        unfold releaseSemaphore
        rw [if_pos hle, hs0]
        simp
      rw [hrel] at h
      dsimp only at h
      rw [if_neg (by simp)] at h
      refine ⟨j, rest, rfl, hs0, ?_⟩
      cases dr with
      | error e =>
        dsimp only at h
        injection h with h1
        injection h1 with ha hb
        exact Or.inl ⟨e, rfl, hb.symm, ha.symm⟩
      | ok d =>
        dsimp only at h
        by_cases hd : d = 0
        · rw [if_pos hd] at h
          exact absurd h (by simp)
        · rw [if_neg hd] at h
          injection h with h1
          injection h1 with ha hb
          exact Or.inr ⟨d, rfl, hd, hb.symm, ha.symm⟩
    · have hrel : releaseSemaphore (s.client_semaphores.getD j 0)
          s.maxQueuedFrames s.maxQueuedFrames =
          (s.client_semaphores.getD j 0, false) := by
        unfold releaseSemaphore
        rw [if_neg hle]
      rw [hrel] at h
      dsimp only at h
      rw [if_pos rfl] at h
      exact absurd h (by simp)

/-- The drain loop fully empties the semaphore: starting from count `c` it
ends at 0, performs exactly `c` successful zero-timeout acquires, and makes
`c + 1` wait attempts (the last one reporting `WAIT_TIMEOUT`). -/
theorem drainSemaphore_eq (c : Nat) : drainSemaphore c = (0, c, c + 1) := by
  induction c with
  | zero => rfl
  | succ n ih => simp [drainSemaphore, ih]

/-- Setting index `i` of a list changes `countP` by swapping the old
element's contribution for the new one's (stated additively). -/
theorem countP_set_add {α : Type} (p : α → Bool) (l : List α) (i : Nat)
    (a d : α) (h : i < l.length) :
    (l.set i a).countP p + (if p (l.getD i d) then 1 else 0) =
      l.countP p + (if p a then 1 else 0) := by
  induction l generalizing i with
  | nil => simp at h
  | cons x xs ih =>
    cases i with
    | zero =>
      simp only [List.set_cons_zero, List.countP_cons, List.getD_cons_zero]
      omega
    | succ n =>
      have h' : n < xs.length := by simpa using h
      have hx := ih n h'
      simp only [List.set_cons_succ, List.countP_cons, List.getD_cons_succ]
      omega

/-! ## C6: the semaphore pre-signal at registration -/

/-- C6: whenever `RegisterClient` returns successfully, the registered
slot's semaphore count equals `maxQueuedFrames` (`kMaximumQueuedFrames`) —
any entry count other than 0 makes the `ReleaseSemaphore` assertion fatal,
so a successful return always leaves the full pre-signal — and on an
otherwise idle system a single dispatch sweep then invokes exactly that
client's callback although no `SubmitFrame` has occurred. -/
theorem C6_presignal_equals_bound :
    (∀ (s s' : AudioSystem) (cb arg : Nat) (dr : Except Nat Nat) (i : Nat),
      i < s.client_semaphores.length →
      s.RegisterClient cb arg dr = some (s', Except.ok i) →
      s'.client_semaphores.getD i 0 = s.maxQueuedFrames) ∧
    (∀ (s : AudioSystem) (cb arg d i : Nat) (rest : List Nat),
      s.worker_running = true →
      (∀ k, k < s.client_semaphores.length →
        s.client_semaphores.getD k 0 = 0) →
      cb ≠ 0 → 0 < s.maxQueuedFrames →
      i < s.clients.length → i < s.client_semaphores.length →
      s.client_semaphores.length = s.clients.length →
      (workerWakeup (registerOutcome s cb arg d i rest)).map
        (fun r => r.2.map Invocation.slot) = some [i]) := by
  constructor
  · intro s s' cb arg dr i his hreg
    obtain ⟨j, rest, hqu, hs0, hcase⟩ :=
      registerClient_some_inv s cb arg dr s' (Except.ok i) hreg
    rcases hcase with ⟨e, _, hre, _⟩ | ⟨d, _, hd, hri, hs'⟩
    · exact absurd hre (by simp)
    · have hij : i = j := by injection hri
      subst hij
      subst hs'
      exact getD_set_self _ _ _ _ his
  · intro s cb arg d i rest hrun hz hcb hq hic his hlen
    rw [registerOutcome_wakeup s cb arg d i rest hrun hz hcb hq hic his hlen]
    simp

/-- C6 witness: both parts at the concrete registration on `c3base`. -/
theorem C6_witness :
    c3sys.client_semaphores.getD 0 0 = c3base.maxQueuedFrames ∧
    (workerWakeup (registerOutcome c3base 77 5 9 0 [1, 2, 3])).map
      (fun r => r.2.map Invocation.slot) = some [0] :=
  ⟨C6_presignal_equals_bound.1 c3base c3sys 77 5 (Except.ok 9) 0 (by decide)
      rfl,
    C6_presignal_equals_bound.2 c3base 77 5 9 0 [1, 2, 3] rfl (by decide)
      (by decide) (by decide) (by decide) (by decide) (by decide)⟩

/-! ## C7: the unregistration drain -/

/-- C7: after `UnregisterClient i` (any in-range `i`, any prior semaphore
count `c`), slot `i`'s semaphore count is 0 — a subsequent zero-timeout
acquire reports no work — and the drain loop performed exactly `c`
successful zero-timeout acquires (so at most `c`) in `c + 1` attempts, each
with timeout 0, hence never blocking. -/
theorem C7_drain_to_zero (s : AudioSystem) (i : Nat) (s' : AudioSystem)
    (his : i < s.client_semaphores.length)
    (h : s.UnregisterClient i = some s') :
    s'.client_semaphores.getD i 0 = 0 ∧
    (drainSemaphore (s.client_semaphores.getD i 0)).2.1 =
      s.client_semaphores.getD i 0 ∧
    (drainSemaphore (s.client_semaphores.getD i 0)).2.2 =
      s.client_semaphores.getD i 0 + 1 := by
  unfold AudioSystem.UnregisterClient at h
  split at h
  · injection h with h'
    subst h'
    refine ⟨?_, ?_, ?_⟩
    · dsimp only
      rw [drainSemaphore_eq]
      exact getD_set_self _ _ _ _ his
    · rw [drainSemaphore_eq]
    · rw [drainSemaphore_eq]
  · exact absurd h (by simp)

/-- C7 witness: the drain theorem at the concrete unregistration on `c3sys`
(whose slot-0 count is 64). -/
theorem C7_witness :
    c4sys.client_semaphores.getD 0 0 = 0 ∧
    (drainSemaphore (c3sys.client_semaphores.getD 0 0)).2.1 =
      c3sys.client_semaphores.getD 0 0 ∧
    (drainSemaphore (c3sys.client_semaphores.getD 0 0)).2.2 =
      c3sys.client_semaphores.getD 0 0 + 1 :=
  C7_drain_to_zero c3sys 0 c4sys (by decide) rfl

/-! ## C9: operations on unoccupied or out-of-range indices -/

/-- C9 counterexample: slot 0 of `c9base` is unoccupied, yet
`UnregisterClient 0` does not fail with any error code — the function
returns no status at all — and it DOES change state: index 0 is pushed onto
the free-list a second time. -/
theorem C9_counterexample :
    c9base.clients.getD 0 AudioClient.empty = AudioClient.empty ∧
    c9base.UnregisterClient 0 = some c9sys ∧
    c9sys ≠ c9base ∧
    c9sys.unused_clients = [0, 1, 0] :=
  ⟨rfl, rfl, by decide, rfl⟩

/-- C9 (amended): `SubmitFrame` and `UnregisterClient` return no
`InvalidSlot` (or any) error code; invalid indices are guarded only by
assertions.  An out-of-range index makes either operation die on a fatal
assertion with no defined result; `SubmitFrame` on an unoccupied in-range
slot dies on the null-driver assertion; but `UnregisterClient` on an
unoccupied in-range slot proceeds normally and mutates state, pushing the
index onto the free-list again. -/
theorem C9_no_invalid_slot_error :
    (∀ (s : AudioSystem) (i p : Nat), s.maxClients ≤ i →
      s.UnregisterClient i = none ∧ s.SubmitFrame i p = none) ∧
    (∀ (s : AudioSystem) (i p : Nat), i < s.maxClients →
      (s.clients.getD i AudioClient.empty).driver = 0 →
      s.SubmitFrame i p = none ∧
      ∃ s', s.UnregisterClient i = some s' ∧
        s'.unused_clients = s.unused_clients ++ [i]) := by
  constructor
  · intro s i p hge
    constructor
    · unfold AudioSystem.UnregisterClient
      rw [if_neg (by omega)]
    · unfold AudioSystem.SubmitFrame
      rw [if_neg (by rintro ⟨hlt, -⟩; omega)]
  · intro s i p hlt hdrv
    constructor
    · unfold AudioSystem.SubmitFrame
      rw [if_neg (by rintro ⟨-, hne⟩; exact hne hdrv)]
    · have hu : s.UnregisterClient i = some { s with
          clients := s.clients.set i AudioClient.empty
          unused_clients := s.unused_clients ++ [i]
          client_semaphores := s.client_semaphores.set i
            (drainSemaphore (s.client_semaphores.getD i 0)).1 } := by
        unfold AudioSystem.UnregisterClient
        rw [if_pos hlt]
      exact ⟨_, hu, rfl⟩

/-- C9 witness: the amended theorem at index 2 (out of range for the
two-slot `c9base`) and at the unoccupied slot 0 of `c9base`. -/
theorem C9_witness :
    (c9base.UnregisterClient 2 = none ∧ c9base.SubmitFrame 2 500 = none) ∧
    (c9base.SubmitFrame 0 500 = none ∧
      ∃ s', c9base.UnregisterClient 0 = some s' ∧
        s'.unused_clients = c9base.unused_clients ++ [0]) :=
  ⟨C9_no_invalid_slot_error.1 c9base 2 500 (by decide),
    C9_no_invalid_slot_error.2 c9base 0 500 (by decide) (by decide)⟩

/-! ## C10: double free of a slot index -/

/-- C10: `UnregisterClient` performs no occupancy check — for an in-range
index `i` whose slot is already free (on the free-list), it pushes `i` onto
the free-list a second time, breaking Nodup, and the free-list size plus
the occupied count then exceeds the capacity `maxClients` by one. -/
theorem C10_duplicate_free_list_push (s : AudioSystem) (i : Nat)
    (hInv : Inv s) (hi : i < s.maxClients) (hmem : i ∈ s.unused_clients) :
    ∃ s', s.UnregisterClient i = some s' ∧
      s'.unused_clients = s.unused_clients ++ [i] ∧
      ¬ s'.unused_clients.Nodup ∧
      s'.unused_clients.length + occupiedCount s' = s.maxClients + 1 := by
  obtain ⟨hcl, hsl, hnd, hfree, hsum⟩ := hInv
  have hdrv : (s.clients.getD i AudioClient.empty).driver = 0 :=
    (hfree i hmem).2
  have hu : s.UnregisterClient i = some { s with
      clients := s.clients.set i AudioClient.empty
      unused_clients := s.unused_clients ++ [i]
      client_semaphores := s.client_semaphores.set i
        (drainSemaphore (s.client_semaphores.getD i 0)).1 } := by
    unfold AudioSystem.UnregisterClient
    rw [if_pos hi]
  refine ⟨_, hu, rfl, ?_, ?_⟩
  · intro hnodup
    rw [List.nodup_append] at hnodup
    exact hnodup.2.2 hmem (List.mem_singleton.mpr rfl)
  · have hcnt := countP_set_add (fun c => c.driver != 0) s.clients i
      AudioClient.empty AudioClient.empty (by omega)
    have hold : ((fun c => c.driver != 0)
        (s.clients.getD i AudioClient.empty)) = false := by
      dsimp only
      rw [hdrv]
      decide
    have hnew : ((fun c => c.driver != 0) AudioClient.empty) = false := rfl
    rw [hold, hnew] at hcnt
    simp only [if_neg Bool.false_ne_true] at hcnt
    unfold occupiedCount at hsum ⊢
    dsimp only
    rw [List.length_append]
    simp only [List.length_singleton]
    omega

/-- C10 witness: the duplicate-push theorem at the unoccupied slot 0 of the
fresh `c9base`. -/
theorem C10_witness :
    ∃ s', c9base.UnregisterClient 0 = some s' ∧
      s'.unused_clients = c9base.unused_clients ++ [0] ∧
      ¬ s'.unused_clients.Nodup ∧
      s'.unused_clients.length + occupiedCount s' = c9base.maxClients + 1 :=
  C10_duplicate_free_list_push c9base 0 (by decide) (by decide) (by decide)

/-! ## C5: the slot-table invariant over operation sequences -/

/-- The default element of a replicated list is returned at every index. -/
theorem getD_replicate {α : Type} (n i : Nat) (a : α) :
    (List.replicate n a).getD i a = a := by
  induction n generalizing i with
  | zero => simp
  | succ m ih =>
    cases i with
    | zero => simp [List.replicate]
    | succ j => simpa [List.replicate] using ih j

/-- A freshly constructed system satisfies the slot-table invariant. -/
theorem inv_create (n q b : Nat) : Inv (AudioSystem.create n q b) := by
  refine ⟨by simp [AudioSystem.create], by simp [AudioSystem.create],
    ?_, ?_, ?_⟩
  · exact List.nodup_range n
  · intro i hi
    have hi' : i < n := by
      simpa [AudioSystem.create] using hi
    refine ⟨hi', ?_⟩
    show ((List.replicate n AudioClient.empty).getD i
      AudioClient.empty).driver = 0
    rw [getD_replicate]
    rfl
  · show (List.range n).length + occupiedCount (AudioSystem.create n q b) = n
    have hocc : occupiedCount (AudioSystem.create n q b) = 0 := by
      unfold occupiedCount AudioSystem.create
      dsimp only
      rw [List.countP_eq_zero]
      intro c hc
      rw [List.eq_of_mem_replicate hc]
      decide
    rw [hocc, List.length_range]
    omega

/-- Each checked pool operation preserves the slot-table invariant and the
capacity. -/
theorem stepOp_preserves (s : AudioSystem) (op : PoolOp) (s' : AudioSystem)
    (hInv : Inv s) (h : stepOp s op = some s') :
    Inv s' ∧ s'.maxClients = s.maxClients := by
  obtain ⟨hcl, hsl, hnd, hfree, hsum⟩ := hInv
  cases op with
  | reg cb arg dr =>
    dsimp only [stepOp] at h
    cases hr : s.RegisterClient cb arg dr with
    | none => rw [hr] at h; exact absurd h (by simp)
    | some pr =>
      obtain ⟨s1, rr⟩ := pr
      rw [hr] at h
      simp only [Option.map_some'] at h
      injection h with h'
      subst h'
      obtain ⟨i, rest, hqu, hs0, hcase⟩ :=
        registerClient_some_inv s cb arg dr s1 rr hr
      have hndc : (i :: rest).Nodup := hqu ▸ hnd
      rcases hcase with ⟨e, hdr, hre, hs1⟩ | ⟨d, hdr, hd, hre, hs1⟩
      · subst hs1
        exact ⟨⟨hcl, by simpa using hsl, hnd, hfree, hsum⟩, rfl⟩
      · subst hs1
        have hin : i ∉ rest := (List.nodup_cons.mp hndc).1
        have him : i ∈ s.unused_clients := by
          rw [hqu]; exact List.mem_cons_self i rest
        obtain ⟨hiN, hi0⟩ := hfree i him
        have hilen : i < s.clients.length := by rw [hcl]; exact hiN
        refine ⟨⟨?_, ?_, ?_, ?_, ?_⟩, rfl⟩
        · show (s.clients.set i _).length = s.maxClients
          rw [List.length_set]; exact hcl
        · show (s.client_semaphores.set i _).length = s.maxClients
          rw [List.length_set]; exact hsl
        · exact (List.nodup_cons.mp hndc).2
        · intro j hj
          have hjm : j ∈ s.unused_clients := by
            rw [hqu]; exact List.mem_cons_of_mem _ hj
          obtain ⟨hjN, hj0⟩ := hfree j hjm
          refine ⟨hjN, ?_⟩
          show ((s.clients.set i _).getD j AudioClient.empty).driver = 0
          rw [getD_set_ne _ _ _ _ _ (fun he => hin (by rw [he]; exact hj))]
          exact hj0
        · have hcnt := countP_set_add (fun c => c.driver != 0) s.clients i
            ⟨d, cb, arg, s.heap_next⟩ AudioClient.empty hilen
          have hold : ((fun c => c.driver != 0)
              (s.clients.getD i AudioClient.empty)) = false := by
            dsimp only; rw [hi0]; decide
          have hnew : ((fun c => c.driver != 0)
              (⟨d, cb, arg, s.heap_next⟩ : AudioClient)) = true := by
            dsimp only; simpa using hd
          rw [hold, hnew] at hcnt
          simp at hcnt
          have hqlen : s.unused_clients.length = rest.length + 1 := by
            rw [hqu]; rfl
          unfold occupiedCount at hsum ⊢
          dsimp only [registerOutcome]
          omega
  | unreg i =>
    dsimp only [stepOp] at h
    split at h
    next hc =>
      obtain ⟨hiN, hdrv⟩ := hc
      unfold AudioSystem.UnregisterClient at h
      rw [if_pos hiN] at h
      injection h with h'
      subst h'
      have hilen : i < s.clients.length := by rw [hcl]; exact hiN
      have hnotin : i ∉ s.unused_clients := fun hmem =>
        hdrv (hfree i hmem).2
      refine ⟨⟨?_, ?_, ?_, ?_, ?_⟩, rfl⟩
      · show (s.clients.set i _).length = s.maxClients
        rw [List.length_set]; exact hcl
      · show (s.client_semaphores.set i _).length = s.maxClients
        rw [List.length_set]; exact hsl
      · refine hnd.append (List.nodup_singleton i) ?_
        intro a ha hb
        rw [List.mem_singleton] at hb
        subst hb
        exact hnotin ha
      · intro j hj
        rcases List.mem_append.mp hj with hj | hj
        · refine ⟨(hfree j hj).1, ?_⟩
          show ((s.clients.set i _).getD j AudioClient.empty).driver = 0
          rw [getD_set_ne _ _ _ _ _ (fun he => hnotin (by rw [he]; exact hj))]
          exact (hfree j hj).2
        · rw [List.mem_singleton] at hj
          subst hj
          refine ⟨hiN, ?_⟩
          show ((s.clients.set j AudioClient.empty).getD j
            AudioClient.empty).driver = 0
          rw [getD_set_self _ _ _ _ hilen]
          rfl
      · have hcnt := countP_set_add (fun c => c.driver != 0) s.clients i
          AudioClient.empty AudioClient.empty hilen
        have hold : ((fun c => c.driver != 0)
            (s.clients.getD i AudioClient.empty)) = true := by
          dsimp only; simpa using hdrv
        have hnew : ((fun c => c.driver != 0) AudioClient.empty) = false :=
          rfl
        rw [hold, hnew] at hcnt
        simp at hcnt
        unfold occupiedCount at hsum ⊢
        dsimp only
        rw [List.length_append]
        simp only [List.length_singleton]
        omega
    next => exact absurd h (by simp)

/-- Running any checked operation sequence preserves the invariant and the
capacity. -/
theorem runOps_preserves (ops : List PoolOp) (s s' : AudioSystem)
    (hInv : Inv s) (h : runOps s ops = some s') :
    Inv s' ∧ s'.maxClients = s.maxClients := by
  induction ops generalizing s with
  | nil =>
    unfold runOps at h
    injection h with h'
    subst h'
    exact ⟨hInv, rfl⟩
  | cons op rest ih =>
    unfold runOps at h
    cases hstep : stepOp s op with
    | none => rw [hstep] at h; exact absurd h (by simp)
    | some s1 =>
      rw [hstep] at h
      obtain ⟨h1, h2⟩ := stepOp_preserves s op s1 hInv hstep
      obtain ⟨h3, h4⟩ := ih s1 h1 h
      exact ⟨h3, h4.trans h2⟩

/-- C5: for every sequence of `RegisterClient`/`UnregisterClient` calls
respecting their preconditions, the occupied-slot count never exceeds the
capacity `n` and free-list size plus occupied count equals `n` after every
operation; moreover the free-list is FIFO: a successful registration pops
the queue front and unregistration pushes onto the back, so freed indices
are reused in first-freed-first-reused order. -/
theorem C5_invariant_and_fifo :
    (∀ (n q b : Nat) (ops : List PoolOp) (s' : AudioSystem),
      runOps (AudioSystem.create n q b) ops = some s' →
      occupiedCount s' ≤ n ∧
      s'.unused_clients.length + occupiedCount s' = n) ∧
    (∀ (s s' : AudioSystem) (cb arg d i : Nat),
      s.RegisterClient cb arg (Except.ok d) = some (s', Except.ok i) →
      s.unused_clients.head? = some i ∧
      s'.unused_clients = s.unused_clients.tail) ∧
    (∀ (s s' : AudioSystem) (i : Nat),
      s.UnregisterClient i = some s' →
      s'.unused_clients = s.unused_clients ++ [i]) := by
  refine ⟨?_, ?_, ?_⟩
  · intro n q b ops s' h
    obtain ⟨⟨-, -, -, -, hsum⟩, hmax⟩ :=
      runOps_preserves ops (AudioSystem.create n q b) s' (inv_create n q b) h
    have hn : s'.maxClients = n := by
      rw [hmax]; rfl
    rw [hn] at hsum
    omega
  · intro s s' cb arg d i h
    obtain ⟨j, rest, hqu, hs0, hcase⟩ :=
      registerClient_some_inv s cb arg (Except.ok d) s' (Except.ok i) h
    rcases hcase with ⟨e, hdr, -, -⟩ | ⟨d', -, hd, hre, hs'⟩
    · exact absurd hdr (by simp)
    · have hij : i = j := by injection hre
      subst hij
      subst hs'
      rw [hqu]
      exact ⟨rfl, rfl⟩
  · intro s s' i h
    unfold AudioSystem.UnregisterClient at h
    split at h
    · injection h with h'
      subst h'
      rfl
    · exact absurd h (by simp)

/-- C5 witness: the invariant after the concrete four-operation run
`c5ops`, the FIFO pop at the concrete registration on `c3base`, and the
FIFO push at the concrete unregistration on `c3sys`. -/
theorem C5_witness :
    (occupiedCount c5final ≤ 2 ∧
      c5final.unused_clients.length + occupiedCount c5final = 2) ∧
    (c3base.unused_clients.head? = some 0 ∧
      c3sys.unused_clients = c3base.unused_clients.tail) ∧
    c4sys.unused_clients = c3sys.unused_clients ++ [0] :=
  ⟨C5_invariant_and_fifo.1 2 4 100 c5ops c5final rfl,
    C5_invariant_and_fifo.2.1 c3base c3sys 77 5 9 0 rfl,
    C5_invariant_and_fifo.2.2 c3sys c4sys 0 rfl⟩

/-! ## C8: shutdown and the dispatch worker -/

/-- C8 counterexample: an interleaved execution in which the worker enters
the blocking wait, `Shutdown` then raises the shutdown signal (while NO
invocation is in flight — the worker is waiting), and yet a NEW callback
invocation begins afterwards: the wait completes on the client semaphore
(whose array index beats the shutdown event's) and the sweep calls into the
execution engine after the signal was raised. -/
theorem C8_counterexample :
    Steps c8w0
      [Lbl.tau, Lbl.shutdownSignal, Lbl.tau, Lbl.invokeBegin 0 9 100]
      c8w4 ∧
    c8w1.wpc = WorkerPC.waiting ∧ c8w1.spc = ShutdownPC.notCalled := by
  refine ⟨?_, rfl, rfl⟩
  have s1 : Step c8w0 Lbl.tau c8w1 := Step.checkRun c8w0 rfl
  have s2 : Step c8w1 Lbl.shutdownSignal c8w2 := Step.shutdownSignal c8w1 rfl
  have s3 : Step c8w2 Lbl.tau c8w3 := Step.wakeSem c8w2 0 rfl rfl
  have s4 : Step c8w3 (Lbl.invokeBegin 0 9 100) c8w4 :=
    Step.invoke c8w3 0 rfl (by decide)
  exact Steps.cons s1 (Steps.cons s2 (Steps.cons s3
    (Steps.cons s4 (Steps.nil c8w4))))

/-- C8 (amended): the shutdown join returns only once the worker has exited
its loop (so `Shutdown` blocks until the worker task has stopped), and once
the worker observes the cleared running flag at a loop boundary (loop head,
post-sweep re-check, or already exited) no further callback invocation ever
begins; an invocation may still begin after the shutdown signal only as
part of a wakeup/sweep already racing with the signal, as in the
counterexample. -/
theorem C8_shutdown_join_and_quiescence :
    (∀ (w w' : WorldState), Step w Lbl.shutdownReturn w' →
      w.wpc = WorkerPC.exited) ∧
    (∀ (w : WorldState) (ls : List Lbl) (w' : WorldState),
      Steps w ls w' → w.running = false →
      (w.wpc = WorkerPC.loopHead ∨ w.wpc = WorkerPC.recheck ∨
        w.wpc = WorkerPC.exited) →
      ∀ i cb a, Lbl.invokeBegin i cb a ∉ ls) := by
  constructor
  · intro w w' hstep
    cases hstep with
    | shutdownReturn h hw => exact hw
  · intro w ls w' hsteps
    induction hsteps with
    | nil =>
      intro _ _ i cb a hmem
      exact absurd hmem (List.not_mem_nil _)
    | @cons w1 w2 w3 l ls1 hstep hrest ih =>
      intro hrun hwpc i cb a hmem
      cases hstep with
      | checkRun h =>
        rcases List.mem_cons.mp hmem with hl | hl
        · cases hl
        · refine ih hrun ?_ i cb a hl
          right; right
          show cond w1.running WorkerPC.waiting WorkerPC.exited =
            WorkerPC.exited
          rw [hrun]
          rfl
      | wakeSem i2 h hs =>
        rcases hwpc with h1 | h1 | h1 <;> rw [h] at h1 <;> cases h1
      | wakeEvent h hs he =>
        rcases hwpc with h1 | h1 | h1 <;> rw [h] at h1 <;> cases h1
      | invoke i2 h hcb =>
        rcases hwpc with h1 | h1 | h1 <;> rw [h] at h1 <;> cases h1
      | skipNull i2 h hcb =>
        rcases hwpc with h1 | h1 | h1 <;> rw [h] at h1 <;> cases h1
      | recheckStep h =>
        rcases List.mem_cons.mp hmem with hl | hl
        · cases hl
        · refine ih hrun ?_ i cb a hl
          right; right
          show cond w1.running WorkerPC.loopHead WorkerPC.exited =
            WorkerPC.exited
          rw [hrun]
          rfl
      | shutdownSignal h =>
        rcases List.mem_cons.mp hmem with hl | hl
        · cases hl
        · exact ih rfl hwpc i cb a hl
      | shutdownReturn h hw =>
        rcases List.mem_cons.mp hmem with hl | hl
        · cases hl
        · exact ih hrun hwpc i cb a hl

/-- C8 witness: the join-precondition part at a concrete shutdown-return
step from `c8wE`, and the quiescence part along the concrete one-step trace
out of `c8wE`. -/
theorem C8_witness :
    c8wE.wpc = WorkerPC.exited ∧
    Lbl.invokeBegin 0 9 100 ∉ [Lbl.shutdownReturn] :=
  ⟨C8_shutdown_join_and_quiescence.1 c8wE
      { c8wE with spc := ShutdownPC.returned }
      (Step.shutdownReturn c8wE rfl rfl),
    C8_shutdown_join_and_quiescence.2 c8wE [Lbl.shutdownReturn]
      { c8wE with spc := ShutdownPC.returned }
      (Steps.cons (Step.shutdownReturn c8wE rfl rfl)
        (Steps.nil { c8wE with spc := ShutdownPC.returned }))
      rfl (Or.inr (Or.inr rfl)) 0 9 100⟩

end Xenia
